import Mathlib

/-!
Shallow embedding of the interest-rate-swap analyzer:
`src/swaps.py` (InterestRate, Party, InterestRateSwap) and
`src/interest_rate_swap_analyzer/analyzer.py` (InterestRateSwapAnalyzer).

Python floats are modelled as exact rationals (ℚ); Python exceptions as
`Except PyErr`; Python `None` as `Option.none`; Python object identity for
`Party` (which defines no `__eq__`) as an explicit `id : ℕ` handle.
-/

namespace SwapModel

/-- Python exception classes relevant to the embedded code. -/
inductive PyErr where
  | typeError (msg : String)
  | valueError (msg : String)
deriving DecidableEq

/-- `class InterestRate` from src/swaps.py: a rate value with a kind tag
(`rate_type`), kept as a raw string exactly as in the source. -/
structure InterestRate where
  rate : ℚ
  rate_type : String
deriving DecidableEq

/-- `InterestRate.__add__` restricted to two `InterestRate` operands:
result kind is floating if either operand is floating, else fixed. -/
def addRate (a b : InterestRate) : InterestRate :=
  ⟨a.rate + b.rate,
   if a.rate_type = "floating" ∨ b.rate_type = "floating" then "floating" else "fixed"⟩

/-- `InterestRate.__sub__` restricted to two `InterestRate` operands:
if the kinds differ the result is floating, otherwise fixed; the numeric
value is always the difference of the operands' values. -/
def subRate (a b : InterestRate) : InterestRate :=
  ⟨a.rate - b.rate,
   if a.rate_type ≠ b.rate_type then "floating" else "fixed"⟩

/-- The error raised by every mismatched-kind comparison in src/swaps.py. -/
def cmpErr : PyErr := .valueError "Cannot compare rates of different types"

/-- `InterestRate.__lt__` on two `InterestRate` operands. -/
def ltRate (a b : InterestRate) : Except PyErr Bool :=
  if a.rate_type ≠ b.rate_type then .error cmpErr
  else .ok (decide (a.rate < b.rate))

/-- `InterestRate.__le__` on two `InterestRate` operands. -/
def leRate (a b : InterestRate) : Except PyErr Bool :=
  if a.rate_type ≠ b.rate_type then .error cmpErr
  else .ok (decide (a.rate ≤ b.rate))

/-- `InterestRate.__eq__` on two `InterestRate` operands. -/
def eqRate (a b : InterestRate) : Except PyErr Bool :=
  if a.rate_type ≠ b.rate_type then .error cmpErr
  else .ok (decide (a.rate = b.rate))

/-- `InterestRate.__ne__` on two `InterestRate` operands. -/
def neRate (a b : InterestRate) : Except PyErr Bool :=
  if a.rate_type ≠ b.rate_type then .error cmpErr
  else .ok (decide (a.rate ≠ b.rate))

/-- `InterestRate.__gt__` on two `InterestRate` operands. -/
def gtRate (a b : InterestRate) : Except PyErr Bool :=
  if a.rate_type ≠ b.rate_type then .error cmpErr
  else .ok (decide (b.rate < a.rate))

/-- `InterestRate.__ge__` on two `InterestRate` operands. -/
def geRate (a b : InterestRate) : Except PyErr Bool :=
  if a.rate_type ≠ b.rate_type then .error cmpErr
  else .ok (decide (b.rate ≤ a.rate))

/-- Truncation toward zero, as Python's `int()` applied to a float. -/
def ratTrunc (q : ℚ) : ℤ :=
  if 0 ≤ q then ⌊q⌋ else ⌈q⌉

/-- Python's `f"{q:.2%}"`: the value as a percentage with two decimal
places (rounded at the second decimal of the percentage). -/
def pct2String (q : ℚ) : String :=
  let c : ℤ := round (q * 10000)
  let sign := if c < 0 then "-" else ""
  let n := c.natAbs
  sign ++ toString (n / 100) ++ "." ++
    (if n % 100 < 10 then "0" else "") ++ toString (n % 100) ++ "%"

/-- Python's `f"S{sign}{abs(int(q*10_000))}"` used for floating rates. -/
def spreadString (q : ℚ) : String :=
  "S" ++ (if 0 ≤ q then "+" else "-") ++ toString (ratTrunc (q * 10000)).natAbs

/-- `InterestRate.__str__`: fixed renders as a two-decimal percentage,
floating as a signed basis-point spread, anything else raises ValueError. -/
def strRate (r : InterestRate) : Except PyErr String :=
  if r.rate_type = "fixed" then .ok (pct2String r.rate)
  else if r.rate_type = "floating" then .ok (spreadString r.rate)
  else .error (.valueError "Invalid rate type")

/-- A dynamically typed Python value as it flows through the analyzer's
arithmetic: either a plain number or an `InterestRate` object. -/
inductive PyVal where
  | num (q : ℚ)
  | rate (r : InterestRate)
deriving DecidableEq

/-- The interpreter-level TypeError for `float + InterestRate`:
`float.__add__` returns NotImplemented and `InterestRate` defines no
`__radd__`. -/
def raddErr : PyErr :=
  .typeError "unsupported operand type(s) for +: float and InterestRate"

/-- The interpreter-level TypeError for `float - InterestRate`
(no `__rsub__` on `InterestRate`). -/
def rsubErr : PyErr :=
  .typeError "unsupported operand type(s) for -: float and InterestRate"

/-- Python `+` over the values the analyzer mixes: `InterestRate.__add__`
handles a rate on the left (numeric operand preserves the kind, rate
operand uses `addRate`); a number on the left with a rate on the right
has no implementation and raises TypeError. -/
def pyAdd : PyVal → PyVal → Except PyErr PyVal
  | .num a, .num b => .ok (.num (a + b))
  | .num _, .rate _ => .error raddErr
  | .rate a, .num b => .ok (.rate ⟨a.rate + b, a.rate_type⟩)
  | .rate a, .rate b => .ok (.rate (addRate a b))

/-- Python `-` over the same values, mirroring `InterestRate.__sub__`. -/
def pySub : PyVal → PyVal → Except PyErr PyVal
  | .num a, .num b => .ok (.num (a - b))
  | .num _, .rate _ => .error rsubErr
  | .rate a, .num b => .ok (.rate ⟨a.rate - b, a.rate_type⟩)
  | .rate a, .rate b => .ok (.rate (subRate a b))

/-- `class Party` from src/swaps.py. `id` models Python object identity:
`Party` defines no `__eq__`, so two instances are equal iff they are the
same object. -/
structure Party where
  id : ℕ
  name : String
  fixed_rate : InterestRate
  floating_rate_delta : InterestRate
  preference : String
deriving DecidableEq

/-- `Party.__init__`: wraps the raw quotes in `InterestRate` values of
kind fixed / floating respectively. -/
def Party.make (id : ℕ) (name : String) (fixed floatDelta : ℚ)
    (pref : String) : Party :=
  ⟨id, name, ⟨fixed, "fixed"⟩, ⟨floatDelta, "floating"⟩, pref⟩

/-- Python `==` on two `Party` objects: object identity. -/
def pyEqParty (p q : Party) : Bool := p.id == q.id

/-- `Party.get_rate`: permissive binary dispatch on the kind string
(anything other than "fixed" yields the floating delta). -/
def Party.get_rate (p : Party) (type : String) : InterestRate :=
  if type = "fixed" then p.fixed_rate else p.floating_rate_delta

/-- `class InterestRateSwap` from src/swaps.py. Dates are modelled as
integer day ordinals; no operation below reads them. -/
structure InterestRateSwap where
  fixed_rate : InterestRate
  floating_rate_delta : InterestRate
  notional : ℚ
  fixed_rate_payer : Party
  floating_rate_payer : Party
  start_date : ℤ
  end_date : ℤ

/-- `InterestRateSwap.__init__`: wraps the raw rates in `InterestRate`
values of kind fixed / floating respectively. -/
def InterestRateSwap.make (fixed floatDelta notional : ℚ)
    (fixedPayer floatingPayer : Party) (sd ed : ℤ) : InterestRateSwap :=
  ⟨⟨fixed, "fixed"⟩, ⟨floatDelta, "floating"⟩, notional,
   fixedPayer, floatingPayer, sd, ed⟩

/-- `calculate_fixed_leg_payment`: semi-annual fixed payment. -/
def InterestRateSwap.calculate_fixed_leg_payment (s : InterestRateSwap) : ℚ :=
  s.notional * s.fixed_rate.rate / 2

/-- `calculate_floating_leg_payment`: semi-annual floating payment over a
benchmark rate. -/
def InterestRateSwap.calculate_floating_leg_payment (s : InterestRateSwap)
    (benchmark_rate : ℚ) : ℚ :=
  s.notional * (benchmark_rate + s.floating_rate_delta.rate) / 2

/-- `calculate_interest_payments`: the four-tuple of leg payments and net
payments. -/
def InterestRateSwap.calculate_interest_payments (s : InterestRateSwap)
    (benchmark_rate : ℚ) : ℚ × ℚ × ℚ × ℚ :=
  let fixed_leg_payment := s.calculate_fixed_leg_payment
  let floating_leg_payment := s.calculate_floating_leg_payment benchmark_rate
  let fixed_leg_net_payment := floating_leg_payment - fixed_leg_payment
  let floating_leg_net_payment := fixed_leg_payment - floating_leg_payment
  (fixed_leg_payment, floating_leg_payment,
   fixed_leg_net_payment, floating_leg_net_payment)

/-- `get_paying_position_for_party`: "fixed" for the designated fixed-rate
payer, "floating" for everyone else. -/
def InterestRateSwap.get_paying_position_for_party (s : InterestRateSwap)
    (party : Party) : String :=
  if pyEqParty party s.fixed_rate_payer then "fixed" else "floating"

/-- `get_receiving_position_for_party`: floating for the fixed-rate payer,
fixed for the floating-rate payer, Python `None` otherwise. -/
def InterestRateSwap.get_receiving_position_for_party (s : InterestRateSwap)
    (party : Party) : Option String :=
  if pyEqParty party s.fixed_rate_payer then some "floating"
  else if pyEqParty party s.floating_rate_payer then some "fixed"
  else none

/-- `InterestRateSwap.get_rate`: same permissive dispatch as
`Party.get_rate`; the argument can be Python `None` (from a receiving
position lookup), and `None == "fixed"` is false, so it falls through to
the floating delta. -/
def InterestRateSwap.get_rate (s : InterestRateSwap) (type : Option String) :
    InterestRate :=
  if type = some "fixed" then s.fixed_rate else s.floating_rate_delta

/-- `ComparativeAnalysis` dataclass from analyzer.py. -/
structure ComparativeAnalysis where
  type : String
  rate : ℚ
deriving DecidableEq

/-- `PartyComparatives` dataclass from analyzer.py. -/
structure PartyComparatives where
  fixed : ℚ
  floating : ℚ
deriving DecidableEq

/-- `SwapAnalysisResult` dataclass from analyzer.py. Python dataclasses do
not enforce their annotations at runtime, so `net_benefit` holds the
`InterestRate` object that `get_net_benefit` actually returns, and the two
derived cost fields hold whatever dynamic value their computation yields. -/
structure SwapAnalysisResult where
  party : Party
  comparative_advantage : ComparativeAnalysis
  net_benefit : InterestRate
  paying_position : String
  receiving_position : Option String
  market_improvement : PyVal
  total_cost : PyVal

/-- `SwapSummary` dataclass from analyzer.py. -/
structure SwapSummary where
  total_arbitrage : ℚ
  fixed_rate : ℚ
  floating_rate : ℚ
  party_a_analysis : SwapAnalysisResult
  party_b_analysis : SwapAnalysisResult

/-- `class InterestRateSwapAnalyzer` from analyzer.py: the two configured
parties and the swap. The cached per-party dictionaries (`comparatives`,
`comparative_advantages`, `comparative_disadvantages`) are modelled as the
pure functions they cache: all inputs are immutable, the code only ever
looks up the two configured parties, and for those keys the dictionary
entry equals the recomputed value. -/
structure InterestRateSwapAnalyzer where
  party_a : Party
  party_b : Party
  interest_rate_swap : InterestRateSwap

namespace InterestRateSwapAnalyzer

/-- `comparatives_for_party`: differentials of the party's quotes against
the other configured party's quotes, reduced to plain numbers. -/
def comparatives_for_party (an : InterestRateSwapAnalyzer) (party : Party) :
    PartyComparatives :=
  let counterparty := if pyEqParty party an.party_a then an.party_b else an.party_a
  let fixed_rate_difference := subRate party.fixed_rate counterparty.fixed_rate
  let floating_rate_difference :=
    subRate party.floating_rate_delta counterparty.floating_rate_delta
  ⟨fixed_rate_difference.rate, floating_rate_difference.rate⟩

/-- `determine_comparative_advantage_for_party`: the strictly smaller
differential wins; a tie yields type "none" with rate 0. -/
def determine_comparative_advantage_for_party (an : InterestRateSwapAnalyzer)
    (party : Party) : ComparativeAnalysis :=
  let c := an.comparatives_for_party party
  if c.fixed < c.floating then ⟨"fixed", c.fixed⟩
  else if c.floating < c.fixed then ⟨"floating", c.floating⟩
  else ⟨"none", 0⟩

/-- `determine_comparative_disadvantage_for_party`: the strictly larger
differential; a tie yields type "none" with rate 0. -/
def determine_comparative_disadvantage_for_party (an : InterestRateSwapAnalyzer)
    (party : Party) : ComparativeAnalysis :=
  let c := an.comparatives_for_party party
  if c.floating < c.fixed then ⟨"fixed", c.fixed⟩
  else if c.fixed < c.floating then ⟨"floating", c.floating⟩
  else ⟨"none", 0⟩

/-- `get_net_benefit`: the party's rate in its comparative-advantage market
minus the swap's rate at the party's receiving position. Both operands are
`InterestRate` objects, so `InterestRate.__sub__` applies and the result is
an `InterestRate` (despite the function's `-> float` annotation); nothing
inside can raise, so the except-to-ValueError wrapper never fires. -/
def get_net_benefit (an : InterestRateSwapAnalyzer) (party : Party) :
    InterestRate :=
  subRate
    (party.get_rate (an.determine_comparative_advantage_for_party party).type)
    (an.interest_rate_swap.get_rate
      (an.interest_rate_swap.get_receiving_position_for_party party))

/-- `_calculate_market_improvement`: the disadvantage-market rate minus
(paying-position rate + net benefit). The inner `+` adds a plain number to
the `InterestRate` returned by `get_net_benefit`. -/
def calcMarketImprovement (an : InterestRateSwapAnalyzer) (party : Party) :
    Except PyErr PyVal := do
  let inner ← pyAdd
    (.num (an.interest_rate_swap.get_rate
      (some (an.interest_rate_swap.get_paying_position_for_party party))).rate)
    (.rate (an.get_net_benefit party))
  pySub
    (.num (party.get_rate
      (an.determine_comparative_disadvantage_for_party party).type).rate)
    inner

/-- `_calculate_total_cost`: paying-position rate + net benefit, again a
plain number plus the `InterestRate` returned by `get_net_benefit`. -/
def calcTotalCost (an : InterestRateSwapAnalyzer) (party : Party) :
    Except PyErr PyVal :=
  pyAdd
    (.num (an.interest_rate_swap.get_rate
      (some (an.interest_rate_swap.get_paying_position_for_party party))).rate)
    (.rate (an.get_net_benefit party))

/-- `_analyze_party`: gathers positions, net benefit and the two derived
cost figures into a `SwapAnalysisResult`; any exception propagates. -/
def analyzeParty (an : InterestRateSwapAnalyzer) (party : Party) :
    Except PyErr SwapAnalysisResult := do
  let paying_position := an.interest_rate_swap.get_paying_position_for_party party
  let receiving_position :=
    an.interest_rate_swap.get_receiving_position_for_party party
  let net_benefit := an.get_net_benefit party
  let market_improvement ← an.calcMarketImprovement party
  let total_cost ← an.calcTotalCost party
  .ok ⟨party, an.determine_comparative_advantage_for_party party, net_benefit,
       paying_position, receiving_position, market_improvement, total_cost⟩

/-- `calculate_total_arbitrage_available`: the sum of the two configured
parties' comparative-advantage rates. -/
def calculate_total_arbitrage_available (an : InterestRateSwapAnalyzer) : ℚ :=
  (an.determine_comparative_advantage_for_party an.party_a).rate +
  (an.determine_comparative_advantage_for_party an.party_b).rate

/-- `analyze`: per-party analysis for both parties, then the summary; any
exception propagates to the caller. -/
def analyze (an : InterestRateSwapAnalyzer) : Except PyErr SwapSummary := do
  let party_a_analysis ← an.analyzeParty an.party_a
  let party_b_analysis ← an.analyzeParty an.party_b
  .ok ⟨an.calculate_total_arbitrage_available,
       an.interest_rate_swap.fixed_rate.rate,
       an.interest_rate_swap.floating_rate_delta.rate,
       party_a_analysis, party_b_analysis⟩

end InterestRateSwapAnalyzer

/-! ## The shipped default scenario (src/test_default_values.py) -/

/-- Party A from the shipped defaults: fixed 10.45%, floating delta 0.75%. -/
def partyA : Party := Party.make 0 "Party A" (1045/10000) (75/10000) "fixed"

/-- Party B from the shipped defaults: fixed 9.65%, floating delta 0.25%. -/
def partyB : Party := Party.make 1 "Party B" (965/10000) (25/10000) "floating"

/-- The default swap: fixed 9.60%, floating delta 0.10%, notional 1,000,000,
Party B as fixed-rate payer (the advisor's recommendation, B having the
fixed-market comparative advantage). -/
def swapDefault : InterestRateSwap :=
  InterestRateSwap.make (96/1000) (1/1000) 1000000 partyB partyA 0 1461

/-- The analyzer over the shipped default inputs. -/
def anDefault : InterestRateSwapAnalyzer := ⟨partyA, partyB, swapDefault⟩

/-! ## Claim theorems -/

open InterestRateSwapAnalyzer

/-- C1: for every analyzer built from two parties and a swap, `analyze()`
never returns a `SwapSummary`: `get_net_benefit` returns an `InterestRate`
object (the difference of two `InterestRate` instances), and both
`_calculate_market_improvement` and `_calculate_total_cost` then add a plain
number to it, which raises a TypeError-class error (`InterestRate` defines
`__add__` but no reflected addition for number + InterestRate). -/
theorem analyze_always_raises_typeError (an : InterestRateSwapAnalyzer) :
    an.analyze = .error raddErr := rfl

/-- C2 counterexample: on the shipped default inputs the claim's final
conjunct fails: `calculate_total_arbitrage_available()` is not 0.013. -/
theorem total_arbitrage_default_ne_013 :
    anDefault.calculate_total_arbitrage_available ≠ 13/1000 := by
  norm_num [anDefault, partyA, partyB, swapDefault, Party.make,
    InterestRateSwap.make, calculate_total_arbitrage_available,
    determine_comparative_advantage_for_party, comparatives_for_party,
    subRate, pyEqParty]

/-- C2 amended: with the shipped default inputs the engine computes
comparatives for A = {fixed: +0.80%, floating: +0.50%} and for
B = {fixed: -0.80%, floating: -0.50%}, A's comparative advantage is
floating and B's is fixed, and `calculate_total_arbitrage_available()`
equals -0.30% (-0.003), the signed sum of the two advantage rates. -/
theorem default_scenario_comparatives_and_arbitrage :
    anDefault.comparatives_for_party partyA = ⟨8/1000, 5/1000⟩ ∧
    anDefault.comparatives_for_party partyB = ⟨-8/1000, -5/1000⟩ ∧
    (anDefault.determine_comparative_advantage_for_party partyA).type
      = "floating" ∧
    (anDefault.determine_comparative_advantage_for_party partyB).type
      = "fixed" ∧
    anDefault.calculate_total_arbitrage_available = -3/1000 := by
  refine ⟨?_, ?_, ?_, ?_, ?_⟩ <;>
    norm_num [anDefault, partyA, partyB, swapDefault, Party.make,
      InterestRateSwap.make, calculate_total_arbitrage_available,
      determine_comparative_advantage_for_party, comparatives_for_party,
      subRate, pyEqParty]

/-- C3 counterexample: on the shipped defaults, Party A's net benefit is
-0.0885, not `swap.get_rate(receiving) - party.get_rate(advantage)` =
+0.0885: the code subtracts in the opposite order from the claim. -/
theorem net_benefit_default_not_spec_formula :
    ¬ ((anDefault.get_net_benefit partyA).rate =
      (anDefault.interest_rate_swap.get_rate
        (anDefault.interest_rate_swap.get_receiving_position_for_party partyA)).rate -
      (partyA.get_rate
        (anDefault.determine_comparative_advantage_for_party partyA).type).rate) := by
  norm_num [anDefault, partyA, partyB, swapDefault, Party.make,
    InterestRateSwap.make, get_net_benefit,
    determine_comparative_advantage_for_party, comparatives_for_party,
    subRate, pyEqParty, Party.get_rate, InterestRateSwap.get_rate,
    InterestRateSwap.get_receiving_position_for_party]
  rw [if_neg (by decide : ¬(("floating" : String) = "fixed"))]
  norm_num

/-- C3 amended: for every analyzer and party, the engine's net benefit is
the party's own rate in its comparative-advantage market minus the swap's
rate at the party's receiving position (the negation of the claimed
formula), returned as an `InterestRate` whose numeric value is that
difference. -/
theorem net_benefit_is_party_rate_minus_swap_rate
    (an : InterestRateSwapAnalyzer) (party : Party) :
    (an.get_net_benefit party).rate =
      (party.get_rate
        (an.determine_comparative_advantage_for_party party).type).rate -
      (an.interest_rate_swap.get_rate
        (an.interest_rate_swap.get_receiving_position_for_party party)).rate :=
  rfl

/-- C4: for every analyzer over two distinct parties, the total arbitrage
is at most 0, and is 0 exactly when the parties' fixed-rate differential
equals their floating-rate differential: each advantage rate is the smaller
of two comparatives and the counterparty's comparatives are the exact
negations, so the two advantage rates sum to min minus max. -/
theorem total_arbitrage_nonpos (an : InterestRateSwapAnalyzer)
    (h : an.party_a.id ≠ an.party_b.id) :
    an.calculate_total_arbitrage_available ≤ 0 ∧
    (an.calculate_total_arbitrage_available = 0 ↔
      an.party_a.fixed_rate.rate - an.party_b.fixed_rate.rate =
        an.party_a.floating_rate_delta.rate - an.party_b.floating_rate_delta.rate) := by
  have haa : pyEqParty an.party_a an.party_a = true := by simp [pyEqParty]
  have hba : pyEqParty an.party_b an.party_a = false := by
    simpa [pyEqParty] using Ne.symm h
  have ca : an.comparatives_for_party an.party_a =
      ⟨an.party_a.fixed_rate.rate - an.party_b.fixed_rate.rate,
       an.party_a.floating_rate_delta.rate - an.party_b.floating_rate_delta.rate⟩ := by
    simp [comparatives_for_party, subRate, haa]
  have cb : an.comparatives_for_party an.party_b =
      ⟨-(an.party_a.fixed_rate.rate - an.party_b.fixed_rate.rate),
       -(an.party_a.floating_rate_delta.rate - an.party_b.floating_rate_delta.rate)⟩ := by
    simp [comparatives_for_party, subRate, hba]
  set x := an.party_a.fixed_rate.rate - an.party_b.fixed_rate.rate with hx
  set y := an.party_a.floating_rate_delta.rate - an.party_b.floating_rate_delta.rate with hy
  simp only [calculate_total_arbitrage_available,
    determine_comparative_advantage_for_party, ca, cb]
  rcases lt_trichotomy x y with hxy | hxy | hxy
  · rw [if_pos hxy, if_neg (by linarith : ¬(-x < -y)), if_pos (by linarith : -y < -x)]
    refine ⟨by simp; linarith, ?_⟩
    constructor
    · intro h0; simp at h0; linarith
    · intro h0; linarith
  · rw [if_neg (by linarith : ¬(x < y)), if_neg (by linarith : ¬(y < x)),
        if_neg (by linarith : ¬(-x < -y)), if_neg (by linarith : ¬(-y < -x))]
    simp [hxy]
  · rw [if_neg (by linarith : ¬(x < y)), if_pos hxy,
        if_pos (by linarith : -x < -y)]
    refine ⟨by simp; linarith, ?_⟩
    constructor
    · intro h0; simp at h0; linarith
    · intro h0; linarith

/-- C4 witness: the nonpositivity theorem applied to the shipped default
analyzer, whose two parties are distinct. -/
theorem total_arbitrage_nonpos_default :
    anDefault.party_a.id ≠ anDefault.party_b.id ∧
    (anDefault.calculate_total_arbitrage_available ≤ 0 ∧
    (anDefault.calculate_total_arbitrage_available = 0 ↔
      anDefault.party_a.fixed_rate.rate - anDefault.party_b.fixed_rate.rate =
        anDefault.party_a.floating_rate_delta.rate -
          anDefault.party_b.floating_rate_delta.rate)) :=
  ⟨by decide, total_arbitrage_nonpos anDefault (by decide)⟩

/-- C5: for every analyzer over two distinct parties, the total arbitrage
equals the sum of the two parties' comparative-advantage rates, and its
value is unchanged when the same two parties are passed with the A and B
labels swapped. -/
theorem total_arbitrage_sum_and_label_invariant (an : InterestRateSwapAnalyzer)
    (h : an.party_a.id ≠ an.party_b.id) :
    an.calculate_total_arbitrage_available =
      (an.determine_comparative_advantage_for_party an.party_a).rate +
      (an.determine_comparative_advantage_for_party an.party_b).rate ∧
    calculate_total_arbitrage_available
        ⟨an.party_b, an.party_a, an.interest_rate_swap⟩ =
      an.calculate_total_arbitrage_available := by
  refine ⟨rfl, ?_⟩
  have c1 : comparatives_for_party ⟨an.party_b, an.party_a, an.interest_rate_swap⟩
      an.party_b = an.comparatives_for_party an.party_b := by
    simp [comparatives_for_party, pyEqParty, Ne.symm h]
  have c2 : comparatives_for_party ⟨an.party_b, an.party_a, an.interest_rate_swap⟩
      an.party_a = an.comparatives_for_party an.party_a := by
    simp [comparatives_for_party, pyEqParty, h]
  simp only [calculate_total_arbitrage_available,
    determine_comparative_advantage_for_party, c1, c2]
  exact add_comm _ _

/-- C5 witness: the sum/label-invariance theorem applied to the shipped
default analyzer. -/
theorem total_arbitrage_sum_and_label_invariant_default :
    anDefault.party_a.id ≠ anDefault.party_b.id ∧
    (anDefault.calculate_total_arbitrage_available =
      (anDefault.determine_comparative_advantage_for_party anDefault.party_a).rate +
      (anDefault.determine_comparative_advantage_for_party anDefault.party_b).rate ∧
    calculate_total_arbitrage_available
        ⟨anDefault.party_b, anDefault.party_a, anDefault.interest_rate_swap⟩ =
      anDefault.calculate_total_arbitrage_available) :=
  ⟨by decide, total_arbitrage_sum_and_label_invariant anDefault (by decide)⟩

/-- C6: for every two `InterestRate` operands, subtraction yields a
floating-kind result when the kinds differ and a fixed-kind result when
they match; and for every rate a, a - a has numeric value 0 and kind
fixed. -/
theorem subRate_kind_and_self (a b : InterestRate) :
    (subRate a b).rate_type =
      (if a.rate_type = b.rate_type then "fixed" else "floating") ∧
    (subRate a a).rate = 0 ∧ (subRate a a).rate_type = "fixed" := by
  refine ⟨?_, by simp [subRate], by simp [subRate]⟩
  by_cases hk : a.rate_type = b.rate_type <;> simp [subRate, hk]

/-- C7: each of the six comparison operators on two `InterestRate`
instances of different kinds raises a ValueError-class error rather than
returning a boolean, whatever the two numeric values are. -/
theorem compare_mismatched_kinds_raises (a b : InterestRate)
    (h : a.rate_type ≠ b.rate_type) :
    ltRate a b = .error cmpErr ∧ leRate a b = .error cmpErr ∧
    eqRate a b = .error cmpErr ∧ neRate a b = .error cmpErr ∧
    gtRate a b = .error cmpErr ∧ geRate a b = .error cmpErr := by
  refine ⟨?_, ?_, ?_, ?_, ?_, ?_⟩ <;>
    simp [ltRate, leRate, eqRate, neRate, gtRate, geRate, h]

/-- C7 witness: the mismatch theorem at a concrete fixed/floating pair. -/
theorem compare_mismatched_kinds_raises_example :
    (("fixed" : String) ≠ "floating") ∧
    (ltRate ⟨1/10, "fixed"⟩ ⟨1/10, "floating"⟩ = .error cmpErr ∧
     leRate ⟨1/10, "fixed"⟩ ⟨1/10, "floating"⟩ = .error cmpErr ∧
     eqRate ⟨1/10, "fixed"⟩ ⟨1/10, "floating"⟩ = .error cmpErr ∧
     neRate ⟨1/10, "fixed"⟩ ⟨1/10, "floating"⟩ = .error cmpErr ∧
     gtRate ⟨1/10, "fixed"⟩ ⟨1/10, "floating"⟩ = .error cmpErr ∧
     geRate ⟨1/10, "fixed"⟩ ⟨1/10, "floating"⟩ = .error cmpErr) :=
  ⟨by decide,
   compare_mismatched_kinds_raises ⟨1/10, "fixed"⟩ ⟨1/10, "floating"⟩ (by decide)⟩

/-- C8: formatting renders value 0.095 fixed as "9.50%", value 0.0025
floating as "S+25", value -0.001 floating as "S-10", and any other kind
tag makes formatting raise a ValueError-class error. -/
theorem strRate_formats (r : InterestRate) :
    strRate ⟨95/1000, "fixed"⟩ = .ok "9.50%" ∧
    strRate ⟨25/10000, "floating"⟩ = .ok "S+25" ∧
    strRate ⟨-1/1000, "floating"⟩ = .ok "S-10" ∧
    (r.rate_type ≠ "fixed" → r.rate_type ≠ "floating" →
      strRate r = .error (.valueError "Invalid rate type")) := by
  refine ⟨?_, ?_, ?_, fun h1 h2 => by simp [strRate, h1, h2]⟩ <;>
    (norm_num [strRate, pct2String, spreadString, ratTrunc]; rfl)

/-- C8 witness: the error branch of the formatting theorem at the concrete
kind tag "weird". -/
theorem strRate_formats_witness :
    (("weird" : String) ≠ "fixed") ∧ (("weird" : String) ≠ "floating") ∧
    strRate ⟨0, "weird"⟩ = .error (.valueError "Invalid rate type") :=
  ⟨by decide, by decide,
   (strRate_formats ⟨0, "weird"⟩).2.2.2 (by decide) (by decide)⟩

/-- C9: evaluating `_calculate_total_cost` at the shipped default inputs:
for either party it raises a TypeError-class error instead of returning
the paying-position rate plus the net benefit, because `get_net_benefit`
returns an `InterestRate` object and number + InterestRate is
unsupported. -/
theorem total_cost_default_raises_typeError :
    anDefault.calcTotalCost partyA = .error raddErr ∧
    anDefault.calcTotalCost partyB = .error raddErr :=
  ⟨rfl, rfl⟩

/-- C10: for every swap and benchmark rate, `calculate_interest_payments`
returns the four-tuple whose first component is notional * fixed rate / 2,
whose second is notional * (benchmark + floating delta) / 2, and whose
third and fourth components are each the other leg's payment minus that
leg's payment and are exact negatives of one another. -/
theorem calculate_interest_payments_spec (s : InterestRateSwap)
    (benchmark_rate : ℚ) :
    (s.calculate_interest_payments benchmark_rate).1 =
      s.notional * s.fixed_rate.rate / 2 ∧
    (s.calculate_interest_payments benchmark_rate).2.1 =
      s.notional * (benchmark_rate + s.floating_rate_delta.rate) / 2 ∧
    (s.calculate_interest_payments benchmark_rate).2.2.1 =
      (s.calculate_interest_payments benchmark_rate).2.1 -
        (s.calculate_interest_payments benchmark_rate).1 ∧
    (s.calculate_interest_payments benchmark_rate).2.2.2 =
      (s.calculate_interest_payments benchmark_rate).1 -
        (s.calculate_interest_payments benchmark_rate).2.1 ∧
    (s.calculate_interest_payments benchmark_rate).2.2.1 =
      -(s.calculate_interest_payments benchmark_rate).2.2.2 :=
  ⟨rfl, rfl, rfl, rfl, (neg_sub _ _).symm⟩

end SwapModel
